import Mathlib

/-
  Shallow embedding of the itplaylab event-ingest server
  (src/server.js v7.8, src/unnamed/part_000 v7.6, src/unnamed/part_001 v7.8-early).

  Conventions:
  * JavaScript values that matter to the claims are modelled by the `JSValue`
    inductive; JS truthiness is `jsTruthy`.
  * Machine clocks, random IDs, network outcomes and JSON.parse of arbitrary
    text are environment inputs, so they are passed in as explicit parameters
    (oracles) to the functions that consume them.
  * File contents are modelled as byte sequences (`List Char`, one Char per
    byte; the spool is ASCII JSON lines written by this very program).
-/

namespace Itpl

/-- Model of a JSON/JavaScript value (the subset the server manipulates). -/
inductive JSValue where
  | null
  | bool (b : Bool)
  | num (n : Int)
  | str (s : String)
  | arr (elems : List JSValue)
  | obj (fields : List (String × JSValue))

/-- JavaScript truthiness of a value. -/
def jsTruthy : JSValue → Bool
  | .null => false
  | .bool b => b
  | .num n => n != 0
  | .str s => s ≠ ""
  | .arr _ => true
  | .obj _ => true

/-- Property access `v.k`: `some` the field value on objects that have the
key (first occurrence, as in JS object literals), `none` (undefined)
otherwise. -/
def jsGet : JSValue → String → Option JSValue
  | .obj fields, k =>
      match fields.find? (fun f => f.1 = k) with
      | some f => some f.2
      | none => none
  | _, _ => none

/-- Truthiness of a possibly-undefined value (undefined is falsy). -/
def jsTruthyOpt : Option JSValue → Bool
  | none => false
  | some v => jsTruthy v

/-- Strict equality test `v === "<s>"` against a string literal. -/
def isStrEq (v : Option JSValue) (s : String) : Bool :=
  match v with
  | some (.str t) => t = s
  | _ => false

/-- `Array.isArray(v)` on a possibly-undefined value. -/
def isArrOpt : Option JSValue → Bool
  | some (.arr _) => true
  | _ => false

/-- String short-circuit `a || b` (`""` is falsy). -/
def strOr (a b : String) : String :=
  if a = "" then b else a

/-- `req.body || {}` (the JSON body defaults to an empty object when falsy). -/
def jsBodyOr (v : JSValue) : JSValue :=
  if jsTruthy v then v else .obj []

/-- `req.body ?? {}` (nullish coalescing; parsed JSON bodies are never
undefined, so only null is replaced). -/
def jsBodyNullish (v : JSValue) : JSValue :=
  match v with
  | .null => .obj []
  | v => v

/- ===== Webhook client (server.js postToGASForSheets, lines 135-178) ===== -/

/-- Normalised result of one webhook call, as built by
`postToGASForSheets`. `latency_ms` is wall-clock and omitted. -/
structure GasResult where
  ok : Bool
  status : Option Nat
  error : Option String
  data : Option JSValue

/-- Outcome of the underlying `fetch` of one webhook call: an HTTP response
with a status and raw body text, an abort (the timeout fired), or another
transport failure with its message. -/
inductive FetchOutcome where
  | response (status : Nat) (raw : String)
  | abortErr
  | failure (msg : String)

/-- server.js lines 135-178. `parseJson` stands for `JSON.parse` on the raw
response text (`none` = parse threw). The second component records whether
an HTTP request was attempted at all. -/
def postToGASForSheets (parseJson : String → Option JSValue)
    (gasWebappUrl itplaylabSecret : String) (outcome : FetchOutcome) :
    GasResult × Bool :=
  if gasWebappUrl = "" ∨ itplaylabSecret = "" then
    ({ ok := false, status := none,
       error := some "missing_GAS_WEBAPP_URL_or_ITPLAYLAB_SECRET",
       data := none }, false)
  else
    match outcome with
    | .response status raw =>
        let data :=
          match parseJson raw with
          | some d => d
          | none => JSValue.obj
              [("ok", .bool false), ("error", .str "invalid_json_from_gas"),
               ("raw", .str raw)]
        ({ ok := jsTruthyOpt (jsGet data "ok"), status := some status,
           error := none, data := some data }, true)
    | .abortErr =>
        ({ ok := false, status := none, error := some "gas_timeout",
           data := none }, true)
    | .failure msg =>
        ({ ok := false, status := none, error := some msg, data := none }, true)

/- ===== Replay worker (server.js lines 225-409) ===== -/

/-- A parsed spool record. The spool is written by `appendJsonl` in this
program, so the fields have the concrete types the writer produces; an
absent string field is modelled as `""` (both are falsy in the `||`
defaulting the reader applies). `payload` is `none` when the key is
absent (the reader applies `?? \x7b\x7d`). -/
structure ReplayRec where
  stage : String
  job_id : String
  trace_id : String
  source : String
  event_type : String
  payload : Option JSValue
  received_at : String
  ts : String
  ingest_latency_ms : Option Int

/-- Replay state as loaded/saved by `loadReplayState`/`saveReplayState`
(`updated_at` is wall-clock and omitted). `last_error` is `none` for JSON
null. -/
structure ReplayState where
  offset : Nat
  last_error : Option JSValue
  sent : Nat
  failed : Nat

/-- server.js lines 298-302. -/
def shouldReplayRecord (replayMode : String) (rec : ReplayRec) : Bool :=
  let stage := strOr rec.stage ""
  if replayMode = "ALL" then stage = "jsonl.always" || stage = "jsonl.fallback"
  else stage = "jsonl.fallback"

/-- `text.lastIndexOf("\n")` on a byte sequence: index of the last newline. -/
def lastNewlinePos : List Char → Option Nat
  | [] => none
  | c :: rest =>
      match lastNewlinePos rest with
      | some i => some (i + 1)
      | none => if c = '\n' then some 0 else none

/-- `text.split("\n")` on a byte sequence. -/
def splitOnNl : List Char → List (List Char)
  | [] => [[]]
  | c :: rest =>
      match splitOnNl rest with
      | [] => [[]]
      | h :: t => if c = '\n' then [] :: h :: t else (c :: h) :: t

/-- Result of `readJsonlFromOffset`. -/
structure ReadResult where
  lines : List ReplayRec
  newOffset : Nat
  eof : Bool

/-- server.js lines 264-296. `parse` stands for `JSON.parse` of one raw line
(`none` = the line is skipped as malformed); `content` is the spool file's
bytes. The `read` is assumed to fill the whole buffer, and the content is
ASCII so byte counts equal char counts. -/
def readJsonlFromOffset (parse : List Char → Option ReplayRec)
    (content : List Char) (offset maxBytes : Nat) : ReadResult :=
  let size := content.length
  if offset ≥ size then { lines := [], newOffset := offset, eof := true }
  else
    let readSize := min maxBytes (size - offset)
    let text := (content.drop offset).take readSize
    match lastNewlinePos text with
    | none => { lines := [], newOffset := offset, eof := false }
    | some lastNl =>
        let complete := text.take lastNl
        let rawLines := (splitOnNl complete).filter (fun l => l ≠ [])
        let parsed := rawLines.filterMap parse
        { lines := parsed, newOffset := offset + (lastNl + 1), eof := false }

/-- The event the replay worker posts to the webhook (server.js lines
364-373). `replayed_at`/`received_at` fall back to the `nowIso` clock
parameter. A non-number `ingest_latency_ms` becomes `""`, modelled as
`none`. -/
structure EventForSheets where
  job_id : String
  trace_id : String
  source : String
  event_type : String
  payload : JSValue
  received_at : String
  ingest_latency_ms : Option Int
  replayed_at : String

/-- server.js lines 364-373: reshape one spool record for the webhook. -/
def eventForSheets (nowIso : String) (rec : ReplayRec) : EventForSheets :=
  { job_id := strOr rec.job_id ""
    trace_id := strOr rec.trace_id ""
    source := strOr rec.source ""
    event_type := strOr rec.event_type ""
    payload := rec.payload.getD (.obj [])
    received_at := strOr (strOr rec.received_at rec.ts) nowIso
    ingest_latency_ms := rec.ingest_latency_ms
    replayed_at := nowIso }

/-- The `r.data?.error || "replay_send_fail"` tail of the error-message
fallback chain. -/
def replayErrMsgData (r : GasResult) : JSValue :=
  match r.data with
  | some d =>
      match jsGet d "error" with
      | some v => if jsTruthy v then v else .str "replay_send_fail"
      | none => .str "replay_send_fail"
  | none => .str "replay_send_fail"

/-- server.js line 378: `r.error || r.data?.error || "replay_send_fail"`. -/
def replayErrMsg (r : GasResult) : JSValue :=
  match r.error with
  | some e => if e ≠ "" then .str e else replayErrMsgData r
  | none => replayErrMsgData r

/-- server.js lines 247-262: `saveReplayState` persists exactly these
fields; the `Number(x || 0)` coercions are the identity on naturals and
`state.last_error || null` nulls out a falsy error value. `updated_at` is
wall-clock and omitted. -/
def saveReplayState (state : ReplayState) : ReplayState :=
  { offset := state.offset
    last_error := state.last_error.bind (fun v => if jsTruthy v then some v else none)
    sent := state.sent
    failed := state.failed }

/-- server.js lines 363-389: send the candidates sequentially,
stop-on-first-failure. Returns the updated in-memory state and
`some errMsg` when a send failed (lines 376-384), `none` when the loop ran
to completion and the offset was advanced to `newOffset` (lines 391-392).
`gas` is the oracle for `postToGASForSheets` on each reshaped record. -/
def replaySendLoop (gas : EventForSheets → GasResult) (nowIso : String)
    (newOffset : Nat) :
    List ReplayRec → ReplayState → ReplayState × Option JSValue
  | [], st => ({ st with offset := newOffset, last_error := none }, none)
  | rec :: rest, st =>
      let r := gas (eventForSheets nowIso rec)
      if r.ok then
        replaySendLoop gas nowIso newOffset rest { st with sent := st.sent + 1 }
      else
        let msg := replayErrMsg r
        ({ st with failed := st.failed + 1, last_error := some msg }, some msg)

/-- Replay tuning (env defaults in server.js lines 98-100). -/
structure ReplayCfg where
  replayBatchSize : Nat
  replayMaxBytesPerTick : Nat
  replayMode : String

/-- Default replay configuration. -/
def defaultReplayCfg : ReplayCfg :=
  { replayBatchSize := 10, replayMaxBytesPerTick := 1048576,
    replayMode := "FALLBACK_ONLY" }

/-- server.js line 347: the records this tick will try to send. -/
def replayCandidates (cfg : ReplayCfg) (parse : List Char → Option ReplayRec)
    (content : List Char) (offset : Nat) : List ReplayRec :=
  (((readJsonlFromOffset parse content offset cfg.replayMaxBytesPerTick).lines).filter
      (shouldReplayRecord cfg.replayMode)).take cfg.replayBatchSize

/-- Return value of one replay tick (the counters the handler reports). -/
inductive TickOutcome where
  | noLines
  | noCandidates (advanced : Nat)
  | sendFail (err : JSValue)
  | allSent (sentCount : Nat) (advanced : Nat)

/-- server.js lines 334-400: the body of `replayTickOnce` after the
enabled/busy/file-exists guards. Returns the state as persisted by
`saveReplayState` (or the untouched input state), whether a save happened,
and the tick outcome. -/
def replayTickOnce (cfg : ReplayCfg) (parse : List Char → Option ReplayRec)
    (gas : EventForSheets → GasResult) (nowIso : String)
    (content : List Char) (state0 : ReplayState) :
    ReplayState × Bool × TickOutcome :=
  let rr := readJsonlFromOffset parse content state0.offset cfg.replayMaxBytesPerTick
  if rr.lines.isEmpty then (state0, false, .noLines)
  else
    let candidates := replayCandidates cfg parse content state0.offset
    if candidates.isEmpty then
      let st := saveReplayState { state0 with offset := rr.newOffset, last_error := none }
      (st, true, .noCandidates (st.offset - state0.offset))
    else
      match replaySendLoop gas nowIso rr.newOffset candidates state0 with
      | (st, none) =>
          (saveReplayState st, true, .allSent candidates.length (st.offset - state0.offset))
      | (st, some msg) => (saveReplayState st, true, .sendFail msg)

/- ===== Stage C store / Stage D queue (server.js lines 704-734) ===== -/

/-- One summary-store record (server.js line 707). -/
structure SummaryRec where
  ts : Int
  hash : String
  bytes : Nat
  duplicate : Bool
deriving DecidableEq

/-- One forward-queue item (server.js lines 718-721, 986-995). -/
structure SyncItem where
  id : String
  hash : String
  bytes : Nat
  received_at : String
  payload_str : String
  retry : Nat
  last_error : Option String
  next_attempt_at : Int
deriving DecidableEq

/-- server.js lines 710-713: push, then trim from the front when over the
limit. -/
def addToStoreSummary (storeLimit : Nat) (store : List SummaryRec)
    (rec : SummaryRec) : List SummaryRec :=
  let s := store ++ [rec]
  if s.length > storeLimit then s.drop 1 else s

/-- server.js lines 727-734: drop-oldest, then push; returns the new queue
and the new dropped counter. -/
def enqueue (queueLimit : Nat) (q : List SyncItem) (dropped : Nat)
    (item : SyncItem) : List SyncItem × Nat :=
  if q.length ≥ queueLimit then (q.drop 1 ++ [item], dropped + 1)
  else (q ++ [item], dropped)

/-- An operation touching the summary store or the forward queue. -/
inductive StoreQueueOp where
  | pushSummary (rec : SummaryRec)
  | enq (item : SyncItem)

/-- Joint state of the summary store and the forward queue. -/
structure StoreQueueState where
  store : List SummaryRec
  queue : List SyncItem
  dropped : Nat

/-- Apply one store/queue operation. -/
def applyStoreQueueOp (storeLimit queueLimit : Nat) (s : StoreQueueState) :
    StoreQueueOp → StoreQueueState
  | .pushSummary rec => { s with store := addToStoreSummary storeLimit s.store rec }
  | .enq item =>
      let qd := enqueue queueLimit s.queue s.dropped item
      { s with queue := qd.1, dropped := qd.2 }

/-- Apply a sequence of store/queue operations in order. -/
def runStoreQueueOps (storeLimit queueLimit : Nat) (s : StoreQueueState) :
    List StoreQueueOp → StoreQueueState
  | [] => s
  | op :: rest =>
      runStoreQueueOps storeLimit queueLimit
        (applyStoreQueueOp storeLimit queueLimit s op) rest

/- ===== POST /events, v7.8 handler (server.js lines 940-1013) ===== -/

/-- server.js lines 128-132: delete every entry older than the window. The
`Map` iterates in insertion order; deletion-during-iteration of a JS Map is
safe, so this is a filter. -/
def cleanupMapByWindow (m : List (String × Int)) (now windowMs : Int) :
    List (String × Int) :=
  m.filter (fun e => ¬ (now - e.2 > windowMs))

/-- The configuration the v7.8 `/events` handler consults (env defaults in
server.js lines 59-105). -/
structure EventsCfg where
  opsMode : String
  dedupeWindowMs : Int
  storeLimit : Nat
  queueLimit : Nat
deriving DecidableEq

/-- Mutable module state the v7.8 `/events` handler touches. -/
structure EventsState where
  receivedCount : Nat
  recentHashes : List (String × Int)
  store : List SummaryRec
  queue : List SyncItem
  queueDropped : Nat
deriving DecidableEq

/-- The JSON body of a v7.8 `/events` response (the fields the claims
mention; `none` marks a field absent from that mode's response). -/
structure EventsResponse where
  status : Nat
  ok : Bool
  received_count : Nat
  bytes : Nat
  duplicate : Option Bool
  stored : Option Nat
  queue_length : Option Nat
deriving DecidableEq

/-- The fingerprint the v7.8 `/events` handler computes for a body:
`sha256(JSON.stringify(req.body ?? \x7b\x7d))`. `stringify` and `hash`
stand for `JSON.stringify` and the hex SHA-256. -/
def v78Fingerprint (stringify : JSValue → String) (hash : String → String)
    (body : JSValue) : String :=
  hash (stringify (jsBodyNullish body))

/-- server.js lines 942-1013: the whole v7.8 `/events` handler. `newId` is
the random queue-item id, `nowIso` the wall-clock ISO string, `now` the
epoch-millisecond clock. Every path responds with HTTP 200. -/
def eventsHandlerV78 (cfg : EventsCfg) (stringify : JSValue → String)
    (hash : String → String) (newId nowIso : String) (body : JSValue)
    (now : Int) (s : EventsState) : EventsState × EventsResponse :=
  let received := s.receivedCount + 1
  let b := jsBodyNullish body
  let payloadStr := stringify b
  let bytes := payloadStr.utf8ByteSize
  if cfg.opsMode = "ECHO" then
    ({ s with receivedCount := received },
     { status := 200, ok := true, received_count := received, bytes := bytes,
       duplicate := none, stored := none, queue_length := none })
  else
    let h := hash payloadStr
    let m := cleanupMapByWindow s.recentHashes now cfg.dedupeWindowMs
    let duplicate := m.any (fun e => e.1 = h)
    let m2 := if duplicate then m else m ++ [(h, now)]
    let store2 := addToStoreSummary cfg.storeLimit s.store
      { ts := now, hash := h, bytes := bytes, duplicate := duplicate }
    let qd :=
      if cfg.opsMode = "FULL" then
        enqueue cfg.queueLimit s.queue s.queueDropped
          { id := newId, hash := h, bytes := bytes, received_at := nowIso,
            payload_str := payloadStr, retry := 0, last_error := none,
            next_attempt_at := 0 }
      else (s.queue, s.queueDropped)
    ({ receivedCount := received, recentHashes := m2, store := store2,
       queue := qd.1, queueDropped := qd.2 },
     { status := 200, ok := true, received_count := received, bytes := bytes,
       duplicate := some duplicate, stored := some store2.length,
       queue_length := if cfg.opsMode = "FULL" then some qd.1.length else none })

/-- Run a sequence of v7.8 `/events` requests, threading the state. Each
request carries its body, its `Date.now()`, and the id/ISO strings the
handler would mint. -/
def runEvents (cfg : EventsCfg) (stringify : JSValue → String)
    (hash : String → String) (s : EventsState) :
    List (JSValue × Int × String × String) → EventsState
  | [] => s
  | (b, t, nid, niso) :: rest =>
      runEvents cfg stringify hash
        (eventsHandlerV78 cfg stringify hash nid niso b t s).1 rest

/- ===== Queue worker (server.js lines 1086-1150) ===== -/

/-- Worker tuning (env defaults in server.js lines 71-73). -/
structure WorkerCfg where
  workerBatchSize : Nat
  workerMaxRetry : Nat
  workerBackoffBaseMs : Nat
deriving DecidableEq

/-- Default worker configuration. -/
def defaultWorkerCfg : WorkerCfg :=
  { workerBatchSize := 5, workerMaxRetry := 5, workerBackoffBaseMs := 2000 }

/-- Outcome of `appendBatchToSheet` (server.js lines 1064-1084): the batch
append either succeeds or throws with a message. -/
inductive SinkResult where
  | okAppend
  | errAppend (msg : String)

/-- server.js lines 1100-1104: collect the first due items, up to the batch
size (`acc` is `candidates.length`, checked at the top of each loop
iteration). -/
def collectCandidates (batch : Nat) (now : Int) :
    List SyncItem → Nat → List SyncItem
  | [], _ => []
  | it :: rest, acc =>
      if acc ≥ batch then []
      else if it.next_attempt_at ≤ now then
        it :: collectCandidates batch now rest (acc + 1)
      else collectCandidates batch now rest acc

/-- server.js lines 1127-1144: the catch-branch marking loop. JS `for...of`
iterates an array by index while `splice` mutates it in place, so the model
tracks the explicit index `i` into the current queue. `fuel` only bounds
the recursion: the index grows by one per step and the queue never grows,
so `q.length + 1` fuel (as `deferDue` passes) is never exhausted before
the loop's own exit conditions fire. Returns the queue and the number of
items counted into `queueFailed`. -/
def deferDueAux (cfg : WorkerCfg) (now : Int) (msg : String) :
    Nat → List SyncItem → Nat → Nat → Nat → List SyncItem × Nat
  | 0, q, _, _, failedCnt => (q, failedCnt)
  | fuel + 1, q, i, marked, failedCnt =>
      if marked ≥ cfg.workerBatchSize then (q, failedCnt)
      else
        match q[i]? with
        | none => (q, failedCnt)
        | some it =>
            if it.next_attempt_at > now then
              deferDueAux cfg now msg fuel q (i + 1) marked failedCnt
            else
              let r := it.retry + 1
              if r > cfg.workerMaxRetry then
                deferDueAux cfg now msg fuel
                  (q.eraseIdx (q.findIdx (fun x => x.id == it.id)))
                  (i + 1) (marked + 1) (failedCnt + 1)
              else
                deferDueAux cfg now msg fuel
                  (q.set i { it with
                             retry := r
                             last_error := some msg
                             next_attempt_at :=
                               now + (cfg.workerBackoffBaseMs : Int) * 2 ^ (r - 1) })
                  (i + 1) (marked + 1) failedCnt

/-- server.js lines 1125-1144: mark/defer/drop the due prefix after a
failed batch append. -/
def deferDue (cfg : WorkerCfg) (now : Int) (msg : String)
    (q : List SyncItem) : List SyncItem × Nat :=
  deferDueAux cfg now msg (q.length + 1) q 0 0 0

/-- Return value of one worker tick. -/
inductive WorkerRet where
  | noDue (skipped : Nat)
  | syncedRet (n : Nat) (remaining : Nat)
  | syncFailed (detail : String) (remaining : Nat)
deriving DecidableEq

/-- server.js lines 1086-1150: the body of `workerTickOnce` after the
readiness/busy guards. `sink` is the oracle for `appendBatchToSheet`.
Returns the queue, the new `queueSynced` and `queueFailed` counters, and
the tick's return value. -/
def workerTickOnce (cfg : WorkerCfg) (sink : List SyncItem → SinkResult)
    (now : Int) (q : List SyncItem) (synced failed : Nat) :
    List SyncItem × Nat × Nat × WorkerRet :=
  let candidates := collectCandidates cfg.workerBatchSize now q 0
  if candidates.isEmpty then (q, synced, failed, .noDue q.length)
  else
    match sink candidates with
    | .okAppend =>
        let ids := candidates.map (fun c => c.id)
        let q2 := q.filter (fun it => ¬ ids.contains it.id)
        let removed := q.length - q2.length
        (q2, synced + removed, failed, .syncedRet removed q2.length)
    | .errAppend msg =>
        let qf := deferDue cfg now msg q
        (qf.1, synced, failed + qf.2, .syncFailed msg qf.1.length)

/- ===== POST /ingest (server.js lines 431-702) ===== -/

/-- The JSON body of a v7.9 `/ingest` response (the fields the claims
mention). -/
structure IngestResponse where
  status : Nat
  ok : Bool
  error : Option String
  job_id : Option String
deriving DecidableEq

/-- server.js lines 431-702: the `/ingest` handler. `jobId`/`traceId`/
`nowIso` are the minted random/clock values; `gas` the webhook call's
result; `alwaysAppendOk`/`fallbackAppendOk` the spool-append outcomes.
The webhook and spool paths only log and append — they never change the
response — so the jsonl/webhook parameters are consumed for fidelity but
cannot influence the result; the surrounding try/catch reaches 500 only
through exceptions, which the modelled operations do not throw. -/
def ingestHandler (body : JSValue) (jobId traceId nowIso : String)
    (jsonlAlwaysOn jsonlFallbackOn : Bool) (gas : GasResult)
    (alwaysAppendOk fallbackAppendOk : Bool) : IngestResponse :=
  let b := jsBodyOr body
  let source := jsGet b "source"
  let event_type := jsGet b "event_type"
  let payload := jsGet b "payload"
  if ¬ jsTruthyOpt source ∨ ¬ jsTruthyOpt event_type ∨ ¬ jsTruthyOpt payload then
    { status := 400, ok := false, error := some "BAD_REQUEST", job_id := none }
  else
    { status := 200, ok := true, error := none, job_id := some jobId }

/- ===== POST /events, v7.6 handler (src/unnamed/part_000 lines 131-248) == -/

/-- A minimal HTTP response for the v7.6 `/events` handler. -/
structure HttpResp where
  status : Nat
  ok : Bool
  error : Option String
deriving DecidableEq

/-- part_000 lines 131-248: the v7.6 `/events` handler's shape dispatch.
The legacy-TSV and standard branches perform sheet appends and dedup
against module state and are abstracted as the `processTsv`/`processStd`
parameters (their internals are irrelevant to the 400 contract); the
branch conditions and the 400 response (lines 145, 193-200) are modelled
verbatim. -/
def eventsHandlerV76 (processTsv processStd : JSValue → HttpResp)
    (body : JSValue) : HttpResp :=
  let b := jsBodyOr body
  if isStrEq (jsGet b "action") "append_events_tsv" && isArrOpt (jsGet b "lines") then
    processTsv b
  else if isArrOpt (jsGet b "events") then processStd b
  else { status := 400, ok := false, error := some "BAD_REQUEST" }

/- ===== Concrete instances used by the claim theorems ===== -/

/-- A spool record with `stage:"jsonl.fallback"` and empty/default other
fields. -/
def fallbackRec : ReplayRec :=
  { stage := "jsonl.fallback", job_id := "", trace_id := "", source := ""
    event_type := "", payload := none, received_at := "", ts := ""
    ingest_latency_ms := none }

/-- Initial replay state (what `loadReplayState` returns with no state
file). -/
def replayState0 : ReplayState :=
  { offset := 0, last_error := none, sent := 0, failed := 0 }

/-- JSON.parse oracle for a spool whose every line is the single byte `f`,
standing for a fallback record. -/
def c1Parse : List Char → Option ReplayRec :=
  fun l => if l = ['f'] then some fallbackRec else none

/-- A spool of 11 one-byte fallback records (22 bytes, lines at offsets
0,2,...,20). -/
def c1Content : List Char := (List.replicate 11 ['f', '\n']).flatten

/-- A webhook oracle that always succeeds. -/
def gasAlwaysOk : EventForSheets → GasResult :=
  fun _ => { ok := true, status := some 200, error := none,
             data := some (.obj [("ok", .bool true)]) }

/-- A webhook oracle that always fails with remote `ok:false` and error
message gas_fail. -/
def gasAlwaysFail : EventForSheets → GasResult :=
  fun _ => { ok := false, status := some 200, error := none,
             data := some (.obj [("ok", .bool false), ("error", .str "gas_fail")]) }

/-- A spool holding exactly one fallback record. -/
def c2Content : List Char := ['f', '\n']

/-- Spool record R1 of the stop-on-fail scenario. -/
def c3R1 : ReplayRec := { fallbackRec with job_id := "1" }

/-- Spool record R2 of the stop-on-fail scenario. -/
def c3R2 : ReplayRec := { fallbackRec with job_id := "2" }

/-- Spool record R3 of the stop-on-fail scenario. -/
def c3R3 : ReplayRec := { fallbackRec with job_id := "3" }

/-- JSON.parse oracle mapping the one-byte lines 1, 2, 3 to R1, R2, R3. -/
def c3Parse : List Char → Option ReplayRec :=
  fun l =>
    if l = ['1'] then some c3R1
    else if l = ['2'] then some c3R2
    else if l = ['3'] then some c3R3
    else none

/-- A spool holding R1, R2, R3 as three 2-byte lines: R1 ends at byte 2,
R2 at byte 4, R3 at byte 6. -/
def c3Content : List Char := ['1', '\n', '2', '\n', '3', '\n']

/-- A webhook oracle that succeeds exactly for R1 (job_id 1) and fails
with remote error gas_fail otherwise. -/
def c3Gas : EventForSheets → GasResult :=
  fun ef =>
    if ef.job_id = "1" then
      { ok := true, status := some 200, error := none,
        data := some (.obj [("ok", .bool true)]) }
    else
      { ok := false, status := some 200, error := none,
        data := some (.obj [("ok", .bool false), ("error", .str "gas_fail")]) }

/-- The default v7.8 configuration (OPS_MODE=FULL and the documented env
defaults). -/
def defaultEventsCfg : EventsCfg :=
  { opsMode := "FULL", dedupeWindowMs := 2000, storeLimit := 200,
    queueLimit := 500 }

/-- Fresh v7.8 module state at process start. -/
def eventsState0 : EventsState :=
  { receivedCount := 0, recentHashes := [], store := [], queue := [],
    queueDropped := 0 }

/-- A body that is neither the standard `events` shape nor the legacy TSV
shape. -/
def c6Body : JSValue := .obj [("foo", .num 1)]

/-- An `/ingest` body that has all three required fields, with `source`
present but equal to the empty string (falsy). -/
def c5Body : JSValue :=
  .obj [("source", .str ""), ("event_type", .str "b"),
        ("payload", .obj [("n", .num 1)])]

/-- An `/ingest` body with all three required fields truthy. -/
def c5GoodBody : JSValue :=
  .obj [("source", .str "a"), ("event_type", .str "b"),
        ("payload", .obj [("n", .num 1)])]

/-- The webhook result when URL/secret are unset. -/
def gasMissingRes : GasResult :=
  { ok := false, status := none,
    error := some "missing_GAS_WEBAPP_URL_or_ITPLAYLAB_SECRET", data := none }

/-- A queue item that has already used up all its retries
(retry = WORKER_MAX_RETRY) and is due. -/
def c7ItemA : SyncItem :=
  { id := "a", hash := "", bytes := 0, received_at := "", payload_str := ""
    retry := 5, last_error := none, next_attempt_at := 0 }

/-- A fresh due queue item right behind `c7ItemA`. -/
def c7ItemB : SyncItem :=
  { id := "b", hash := "", bytes := 0, received_at := "", payload_str := ""
    retry := 0, last_error := none, next_attempt_at := 0 }

/- =====================  Theorems  ===================== -/

/-- C9: a webhook call with an empty URL or secret returns the fixed
missing-configuration failure without attempting an HTTP request; with
both configured, the result's `ok` equals the boolean `ok` field of the
parsed response body, whatever the HTTP status code was. -/
theorem postToGAS_missing_config_and_remote_ok
    (parseJson : String → Option JSValue) (url secret : String)
    (outcome : FetchOutcome) (status : Nat) (raw : String) (d : JSValue)
    (b : Bool) :
    ((url = "" ∨ secret = "") →
      postToGASForSheets parseJson url secret outcome = (gasMissingRes, false))
    ∧ (url ≠ "" → secret ≠ "" → parseJson raw = some d →
        jsGet d "ok" = some (.bool b) →
        (postToGASForSheets parseJson url secret (.response status raw)).1.ok = b) := by
  constructor
  · intro h
    unfold postToGASForSheets
    rw [if_pos h]
    rfl
  · intro h1 h2 hp hok
    unfold postToGASForSheets
    rw [if_neg (by tauto)]
    simp [hp, hok, jsTruthyOpt, jsTruthy]

/-- Witness for C9 at concrete inputs: an unset URL short-circuits, and a
200 response whose body says ok:false yields ok = false. -/
theorem postToGAS_witness :
    postToGASForSheets (fun _ => none) "" "s" .abortErr = (gasMissingRes, false)
    ∧ (postToGASForSheets (fun _ => some (.obj [("ok", .bool false)])) "u" "s"
        (.response 200 "x")).1.ok = false := by
  constructor
  · exact (postToGAS_missing_config_and_remote_ok (fun _ => none) "" "s"
      .abortErr 200 "x" (.obj []) false).1 (Or.inl rfl)
  · exact (postToGAS_missing_config_and_remote_ok
      (fun _ => some (.obj [("ok", .bool false)])) "u" "s" .abortErr 200 "x"
      (.obj [("ok", .bool false)]) false).2 (by decide) (by decide) rfl rfl

/-- Pushing a summary record preserves the store-limit bound. -/
theorem addToStoreSummary_length_le (storeLimit : Nat)
    (store : List SummaryRec) (rec : SummaryRec)
    (h : store.length ≤ storeLimit) :
    (addToStoreSummary storeLimit store rec).length ≤ storeLimit := by
  simp only [addToStoreSummary]
  split <;> simp_all

/-- Enqueueing preserves the queue-limit bound when the limit is
positive. -/
theorem enqueue_length_le (queueLimit : Nat) (q : List SyncItem)
    (dropped : Nat) (item : SyncItem) (hq : 1 ≤ queueLimit)
    (h : q.length ≤ queueLimit) :
    (enqueue queueLimit q dropped item).1.length ≤ queueLimit := by
  unfold enqueue
  split
  · simp_all
    omega
  · simp_all
    omega

/-- A store/queue state within bounds stays within bounds under one
operation. -/
theorem applyStoreQueueOp_bounds (storeLimit queueLimit : Nat)
    (hq : 1 ≤ queueLimit) (s : StoreQueueState) (op : StoreQueueOp)
    (hs : s.store.length ≤ storeLimit) (hqn : s.queue.length ≤ queueLimit) :
    (applyStoreQueueOp storeLimit queueLimit s op).store.length ≤ storeLimit ∧
    (applyStoreQueueOp storeLimit queueLimit s op).queue.length ≤ queueLimit := by
  cases op with
  | pushSummary rec =>
      exact ⟨addToStoreSummary_length_le storeLimit s.store rec hs, hqn⟩
  | enq item =>
      exact ⟨hs, enqueue_length_le queueLimit s.queue s.dropped item hq hqn⟩

/-- C8: starting from any state within bounds (in particular the empty
start state), after any sequence of summary pushes and queue enqueues both
bounds still hold — so they hold at every moment — and an enqueue into a
full queue drops the head (oldest item) first and increments the dropped
counter. Requires the configured QUEUE_LIMIT to be at least 1 (default
500). -/
theorem store_queue_bounds (storeLimit queueLimit : Nat)
    (hq : 1 ≤ queueLimit) (s : StoreQueueState)
    (hs : s.store.length ≤ storeLimit) (hqn : s.queue.length ≤ queueLimit)
    (ops : List StoreQueueOp) (q : List SyncItem) (d : Nat) (item : SyncItem)
    (hfull : q.length = queueLimit) :
    ((runStoreQueueOps storeLimit queueLimit s ops).store.length ≤ storeLimit ∧
     (runStoreQueueOps storeLimit queueLimit s ops).queue.length ≤ queueLimit) ∧
    enqueue queueLimit q d item = (q.drop 1 ++ [item], d + 1) := by
  constructor
  · induction ops generalizing s with
    | nil => exact ⟨hs, hqn⟩
    | cons op rest ih =>
        have h := applyStoreQueueOp_bounds storeLimit queueLimit hq s op hs hqn
        exact ih _ h.1 h.2
  · unfold enqueue
    rw [if_pos (by omega)]

/-- Witness for C8 at concrete inputs: two pushes and three enqueues at
limits 1 and 2 stay within bounds, and the full-queue enqueue clause at a
queue of length 2. -/
theorem store_queue_bounds_witness :
    ((runStoreQueueOps 1 2 { store := [], queue := [], dropped := 0 }
        [.pushSummary { ts := 0, hash := "h", bytes := 1, duplicate := false },
         .enq c7ItemA,
         .pushSummary { ts := 1, hash := "h", bytes := 1, duplicate := true },
         .enq c7ItemB, .enq c7ItemA]).store.length ≤ 1 ∧
     (runStoreQueueOps 1 2 { store := [], queue := [], dropped := 0 }
        [.pushSummary { ts := 0, hash := "h", bytes := 1, duplicate := false },
         .enq c7ItemA,
         .pushSummary { ts := 1, hash := "h", bytes := 1, duplicate := true },
         .enq c7ItemB, .enq c7ItemA]).queue.length ≤ 2) ∧
    enqueue 2 [c7ItemA, c7ItemB] 7 c7ItemA = ([c7ItemB, c7ItemA], 8) := by
  exact store_queue_bounds 1 2 (by decide)
    { store := [], queue := [], dropped := 0 } (by decide) (by decide) _
    [c7ItemA, c7ItemB] 7 c7ItemA (by decide)

/-- C5 counterexample: this `/ingest` body contains all three required
fields — `source` is present but the empty string — yet the handler
responds 400, not 200: the check is JS truthiness, not presence. -/
theorem ingest_present_but_falsy_field_400 :
    (jsGet c5Body "source").isSome = true ∧
    (jsGet c5Body "event_type").isSome = true ∧
    (jsGet c5Body "payload").isSome = true ∧
    (ingestHandler c5Body "job_x" "tr" "iso" false true gasMissingRes true true).status = 400 ∧
    (400 : Nat) ≠ 200 := by
  decide

/-- C5 amended: `/ingest` responds 200 with ok:true and the minted job_id
exactly when all three of source, event_type, payload are present and
truthy — independently of the webhook result and the spool toggles — and
responds 400 BAD_REQUEST when any of the three is missing or falsy. -/
theorem ingest_truthy_fields_decide (body : JSValue)
    (jobId traceId nowIso : String) (aOn fOn : Bool) (gas : GasResult)
    (aOk fOk : Bool) :
    (jsTruthyOpt (jsGet (jsBodyOr body) "source") = true →
     jsTruthyOpt (jsGet (jsBodyOr body) "event_type") = true →
     jsTruthyOpt (jsGet (jsBodyOr body) "payload") = true →
     ingestHandler body jobId traceId nowIso aOn fOn gas aOk fOk =
       { status := 200, ok := true, error := none, job_id := some jobId }) ∧
    ((jsTruthyOpt (jsGet (jsBodyOr body) "source") = false ∨
      jsTruthyOpt (jsGet (jsBodyOr body) "event_type") = false ∨
      jsTruthyOpt (jsGet (jsBodyOr body) "payload") = false) →
     ingestHandler body jobId traceId nowIso aOn fOn gas aOk fOk =
       { status := 400, ok := false, error := some "BAD_REQUEST", job_id := none }) := by
  constructor
  · intro h1 h2 h3
    unfold ingestHandler
    rw [if_neg (by simp [h1, h2, h3])]
  · intro h
    unfold ingestHandler
    rw [if_pos (by rcases h with h | h | h <;> simp [h])]

/-- Witness for C5 at concrete inputs: a body with three truthy fields gets
200 with its job_id even when the webhook is unconfigured, and a body
missing `payload` gets 400. -/
theorem ingest_truthy_fields_witness :
    ingestHandler c5GoodBody "job_1" "tr" "iso" false true gasMissingRes true true =
      { status := 200, ok := true, error := none, job_id := some "job_1" } ∧
    ingestHandler (.obj [("source", .str "a"), ("event_type", .str "b")])
        "job_2" "tr" "iso" false true gasMissingRes true true =
      { status := 400, ok := false, error := some "BAD_REQUEST", job_id := none } := by
  constructor
  · exact (ingest_truthy_fields_decide c5GoodBody "job_1" "tr" "iso" false true
      gasMissingRes true true).1 (by decide) (by decide) (by decide)
  · exact (ingest_truthy_fields_decide
      (.obj [("source", .str "a"), ("event_type", .str "b")]) "job_2" "tr"
      "iso" false true gasMissingRes true true).2 (by decide)

/-- C6 counterexample: a body of neither shape (no `events` array, no TSV
action) sent to the current (v7.8) `/events` handler gets HTTP 200, not
400 — the v7.8 handler accepts any body. -/
theorem eventsV78_neither_shape_200 :
    (isStrEq (jsGet (jsBodyOr c6Body) "action") "append_events_tsv" &&
      isArrOpt (jsGet (jsBodyOr c6Body) "lines")) = false ∧
    isArrOpt (jsGet (jsBodyOr c6Body) "events") = false ∧
    (eventsHandlerV78 defaultEventsCfg (fun _ => "s") (fun h => h) "id1" "iso"
        c6Body 0 eventsState0).2.status = 200 ∧
    (200 : Nat) ≠ 400 := by
  decide

/-- C6 amended: in the legacy v7.6 `/events` handler, every body that is
neither the legacy TSV shape nor the standard events-array shape yields
400 with ok:false and error BAD_REQUEST, whatever the two accepted
branches would do. -/
theorem eventsV76_neither_shape_400
    (processTsv processStd : JSValue → HttpResp) (body : JSValue)
    (htsv : (isStrEq (jsGet (jsBodyOr body) "action") "append_events_tsv" &&
             isArrOpt (jsGet (jsBodyOr body) "lines")) = false)
    (hstd : isArrOpt (jsGet (jsBodyOr body) "events") = false) :
    eventsHandlerV76 processTsv processStd body =
      { status := 400, ok := false, error := some "BAD_REQUEST" } := by
  unfold eventsHandlerV76
  rw [if_neg (by simp [htsv]), if_neg (by simp [hstd])]

/-- Witness for the C6 amended theorem at a concrete neither-shape body. -/
theorem eventsV76_neither_shape_400_witness :
    eventsHandlerV76 (fun _ => { status := 200, ok := true, error := none })
        (fun _ => { status := 200, ok := true, error := none }) c6Body =
      { status := 400, ok := false, error := some "BAD_REQUEST" } := by
  exact eventsV76_neither_shape_400 _ _ c6Body (by decide) (by decide)

/-- C7: evaluation of the failed worker tick at the failing input. The
queue holds two due items: item a with retry = WORKER_MAX_RETRY = 5 and
item b with retry = 0; the sink fails. The claim requires both due items
(well within WORKER_BATCH_SIZE = 5) to get retry incremented and
last_error set, with item a then dropped. The code instead drops item a
and leaves item b completely untouched (retry still 0, last_error still
null): the for...of loop iterates by index while splice shifts the array,
so the item after a removal is skipped. -/
theorem workerTick_skips_item_after_drop :
    workerTickOnce defaultWorkerCfg (fun _ => .errAppend "sink_down") 1000
        [c7ItemA, c7ItemB] 0 0 =
      ([c7ItemB], 0, 1, .syncFailed "sink_down" 1) ∧
    c7ItemB.retry = 0 ∧ c7ItemB.last_error = none := by
  decide

/-- The tail of the replay error-message fallback chain is always a truthy
value. -/
theorem replayErrMsgData_truthy (r : GasResult) :
    jsTruthy (replayErrMsgData r) = true := by
  unfold replayErrMsgData
  split
  · split
    · split
      · simp_all
      · decide
    · decide
  · decide

/-- The replay error message is always a truthy value (so
`saveReplayState` persists it as-is). -/
theorem replayErrMsg_truthy (r : GasResult) :
    jsTruthy (replayErrMsg r) = true := by
  unfold replayErrMsg
  split
  · split
    · simp_all [jsTruthy]
    · exact replayErrMsgData_truthy r
  · exact replayErrMsgData_truthy r

/-- The send loop on a candidate list whose first failure comes after
`pre`: the sends before the failure bump `sent`, the failure bumps
`failed` and records the message, and the offset is left untouched. -/
theorem replaySendLoop_firstFail (gas : EventForSheets → GasResult)
    (nowIso : String) (newOffset : Nat) (pre : List ReplayRec) (c : ReplayRec)
    (rest : List ReplayRec) (st : ReplayState)
    (hpre : ∀ r ∈ pre, (gas (eventForSheets nowIso r)).ok = true)
    (hfail : (gas (eventForSheets nowIso c)).ok = false) :
    replaySendLoop gas nowIso newOffset (pre ++ c :: rest) st =
      ({ offset := st.offset,
         last_error := some (replayErrMsg (gas (eventForSheets nowIso c))),
         sent := st.sent + pre.length, failed := st.failed + 1 },
       some (replayErrMsg (gas (eventForSheets nowIso c)))) := by
  induction pre generalizing st with
  | nil =>
      simp only [List.nil_append, replaySendLoop]
      rw [if_neg (by simp [hfail])]
      simp
  | cons a as ih =>
      have ha : (gas (eventForSheets nowIso a)).ok = true := hpre a (by simp)
      simp only [List.cons_append, replaySendLoop]
      rw [if_pos (by simp [ha])]
      simp only [List.append_eq]
      rw [ih _ (fun r hr => hpre r (by simp [hr]))]
      simp [ReplayState.mk.injEq]
      omega

/-- A replay tick whose candidate list has a first failure after `pre`
persists the state with the offset unchanged, `failed` incremented,
`sent` grown by the successful prefix and `last_error` recorded. -/
theorem replayTickOnce_firstFail (cfg : ReplayCfg)
    (parse : List Char → Option ReplayRec) (gas : EventForSheets → GasResult)
    (nowIso : String) (content : List Char) (st0 : ReplayState)
    (pre : List ReplayRec) (c : ReplayRec) (rest : List ReplayRec)
    (hc : replayCandidates cfg parse content st0.offset = pre ++ c :: rest)
    (hpre : ∀ r ∈ pre, (gas (eventForSheets nowIso r)).ok = true)
    (hfail : (gas (eventForSheets nowIso c)).ok = false) :
    replayTickOnce cfg parse gas nowIso content st0 =
      ({ offset := st0.offset,
         last_error := some (replayErrMsg (gas (eventForSheets nowIso c))),
         sent := st0.sent + pre.length, failed := st0.failed + 1 },
       true, .sendFail (replayErrMsg (gas (eventForSheets nowIso c)))) := by
  have hcne : replayCandidates cfg parse content st0.offset ≠ [] := by
    rw [hc]
    simp
  have hlne :
      (readJsonlFromOffset parse content st0.offset cfg.replayMaxBytesPerTick).lines ≠ [] := by
    intro h
    apply hcne
    simp [replayCandidates, h]
  simp only [replayTickOnce]
  rw [if_neg (by simp [hlne]), hc]
  rw [if_neg (by simp)]
  rw [replaySendLoop_firstFail gas nowIso _ pre c rest st0 hpre hfail]
  simp [saveReplayState, replayErrMsg_truthy]

/-- C2: when some candidate's webhook post fails during a replay tick, the
tick stops at the first failing record and persists a state whose `failed`
counter is incremented by one, whose `last_error` is the failure message,
and whose `offset` equals the offset loaded at the start of the tick — so
the next tick re-reads from the same first byte. -/
theorem replay_failed_tick_offset_unchanged (cfg : ReplayCfg)
    (parse : List Char → Option ReplayRec) (gas : EventForSheets → GasResult)
    (nowIso : String) (content : List Char) (st0 : ReplayState)
    (pre : List ReplayRec) (c : ReplayRec) (rest : List ReplayRec)
    (hc : replayCandidates cfg parse content st0.offset = pre ++ c :: rest)
    (hpre : ∀ r ∈ pre, (gas (eventForSheets nowIso r)).ok = true)
    (hfail : (gas (eventForSheets nowIso c)).ok = false) :
    ((replayTickOnce cfg parse gas nowIso content st0).1).offset = st0.offset ∧
    ((replayTickOnce cfg parse gas nowIso content st0).1).failed = st0.failed + 1 ∧
    ((replayTickOnce cfg parse gas nowIso content st0).1).last_error =
      some (replayErrMsg (gas (eventForSheets nowIso c))) ∧
    (replayTickOnce cfg parse gas nowIso content st0).2.1 = true := by
  rw [replayTickOnce_firstFail cfg parse gas nowIso content st0 pre c rest hc
    hpre hfail]
  exact ⟨rfl, rfl, rfl, rfl⟩

/-- Witness for C2 at a concrete spool of one fallback record whose send
fails: the persisted offset stays 0 and the failed counter becomes 1. -/
theorem replay_failed_tick_witness :
    ((replayTickOnce defaultReplayCfg c1Parse gasAlwaysFail "iso" c2Content
        replayState0).1).offset = 0 ∧
    ((replayTickOnce defaultReplayCfg c1Parse gasAlwaysFail "iso" c2Content
        replayState0).1).failed = 1 := by
  have h := replay_failed_tick_offset_unchanged defaultReplayCfg c1Parse
    gasAlwaysFail "iso" c2Content replayState0 [] fallbackRec [] rfl
    (by simp) rfl
  exact ⟨h.1, h.2.1⟩

/-- C3 counterexample: spool R1,R2,R3 (2-byte lines; R1's newline ends at
byte 2), webhook succeeds for R1 and fails for R2. After the tick the
persisted state has sent = 1 and last_error set as the claim says, but its
offset is 0 — the offset loaded at the start of the tick — not 2, the byte
position after R1's newline: the code never advances the offset on a
failed tick, so R1 will be re-sent. -/
theorem replay_stop_on_fail_offset_not_after_R1 :
    ((replayTickOnce defaultReplayCfg c3Parse c3Gas "iso" c3Content
        replayState0).1).sent = 1 ∧
    ((replayTickOnce defaultReplayCfg c3Parse c3Gas "iso" c3Content
        replayState0).1).last_error = some (.str "gas_fail") ∧
    ((replayTickOnce defaultReplayCfg c3Parse c3Gas "iso" c3Content
        replayState0).1).offset = 0 ∧
    ((replayTickOnce defaultReplayCfg c3Parse c3Gas "iso" c3Content
        replayState0).1).offset ≠ 2 := by
  refine ⟨rfl, rfl, rfl, by decide⟩

/-- C3 amended: with three consecutive replay candidates R1,R2,R3 in the
read window, the webhook succeeding for R1 and failing for R2, the tick
persists sent incremented by one and last_error set, with the offset
unchanged — equal to the offset loaded at the start of the tick (the
position *before* R1), not the position after R1's newline. -/
theorem replay_R1ok_R2fail_state (cfg : ReplayCfg)
    (parse : List Char → Option ReplayRec) (gas : EventForSheets → GasResult)
    (nowIso : String) (content : List Char) (st0 : ReplayState)
    (R1 R2 R3 : ReplayRec)
    (hc : replayCandidates cfg parse content st0.offset = [R1, R2, R3])
    (h1 : (gas (eventForSheets nowIso R1)).ok = true)
    (h2 : (gas (eventForSheets nowIso R2)).ok = false) :
    (replayTickOnce cfg parse gas nowIso content st0).1 =
      { offset := st0.offset,
        last_error := some (replayErrMsg (gas (eventForSheets nowIso R2))),
        sent := st0.sent + 1, failed := st0.failed + 1 } := by
  have h := replayTickOnce_firstFail cfg parse gas nowIso content st0 [R1] R2
    [R3] (by simpa using hc)
    (by
      intro r hr
      rw [List.mem_singleton] at hr
      rw [hr]
      exact h1)
    h2
  rw [h]
  simp

/-- Witness for the C3 amended theorem at the concrete R1,R2,R3 spool. -/
theorem replay_R1ok_R2fail_state_witness :
    (replayTickOnce defaultReplayCfg c3Parse c3Gas "iso" c3Content
        replayState0).1 =
      { offset := 0, last_error := some (.str "gas_fail"), sent := 1,
        failed := 1 } := by
  have h := replay_R1ok_R2fail_state defaultReplayCfg c3Parse c3Gas "iso"
    c3Content replayState0 c3R1 c3R2 c3R3 rfl rfl rfl
  rw [h]
  rfl

/-- C1: evaluation of a fully successful replay tick at the failing input.
The 22-byte spool holds 11 replay candidates (one per 2-byte line, the
11th starting at byte 20), REPLAY_BATCH_SIZE is 10 and every webhook post
succeeds. The tick sends only the first 10 candidates yet persists
offset = 22, past byte 20 where the unsent 11th candidate starts — the
offset has crossed an undelivered record, which the claim (and the spec's
at-least-once guarantee) forbids. -/
theorem replay_success_tick_offset_overrun :
    ((readJsonlFromOffset c1Parse c1Content 0
        defaultReplayCfg.replayMaxBytesPerTick).lines.filter
        (shouldReplayRecord defaultReplayCfg.replayMode)).length = 11 ∧
    (replayCandidates defaultReplayCfg c1Parse c1Content 0).length = 10 ∧
    c1Content.length = 22 ∧
    ((replayTickOnce defaultReplayCfg c1Parse gasAlwaysOk "iso" c1Content
        replayState0).1).sent = 10 ∧
    ((replayTickOnce defaultReplayCfg c1Parse gasAlwaysOk "iso" c1Content
        replayState0).1).offset = 22 ∧
    20 < ((replayTickOnce defaultReplayCfg c1Parse gasAlwaysOk "iso"
        c1Content replayState0).1).offset := by
  refine ⟨rfl, rfl, rfl, rfl, rfl, by decide⟩

/-- An entry of the cleaned window map was in the map before cleanup. -/
theorem cleanupMapByWindow_subset (m : List (String × Int)) (now w : Int)
    (e : String × Int) (h : e ∈ cleanupMapByWindow m now w) : e ∈ m := by
  unfold cleanupMapByWindow at h
  exact List.mem_of_mem_filter h

/-- Characterisation of the window map after one non-ECHO v7.8 `/events`
request: cleanup, then insert the fingerprint unless already present. -/
theorem eventsHandlerV78_recentHashes_eq (cfg : EventsCfg)
    (stringify : JSValue → String) (hash : String → String)
    (nid niso : String) (b : JSValue) (tm : Int) (s : EventsState)
    (hmode : cfg.opsMode ≠ "ECHO") :
    ((eventsHandlerV78 cfg stringify hash nid niso b tm s).1).recentHashes =
      (if ((cleanupMapByWindow s.recentHashes tm cfg.dedupeWindowMs).any
          (fun e => e.1 = hash (stringify (jsBodyNullish b)))) = true then
        cleanupMapByWindow s.recentHashes tm cfg.dedupeWindowMs
      else
        cleanupMapByWindow s.recentHashes tm cfg.dedupeWindowMs ++
          [(hash (stringify (jsBodyNullish b)), tm)]) := by
  unfold eventsHandlerV78
  rw [if_neg hmode]

/-- Characterisation of the duplicate flag of one non-ECHO v7.8 `/events`
response: whether the cleaned window map already holds the fingerprint. -/
theorem eventsHandlerV78_duplicate_eq (cfg : EventsCfg)
    (stringify : JSValue → String) (hash : String → String)
    (nid niso : String) (b : JSValue) (tm : Int) (s : EventsState)
    (hmode : cfg.opsMode ≠ "ECHO") :
    ((eventsHandlerV78 cfg stringify hash nid niso b tm s).2).duplicate =
      some ((cleanupMapByWindow s.recentHashes tm cfg.dedupeWindowMs).any
        (fun e => e.1 = hash (stringify (jsBodyNullish b)))) := by
  unfold eventsHandlerV78
  rw [if_neg hmode]

/-- A duplicate-window entry no older than the window survives one v7.8
`/events` request, whatever its body. -/
theorem recentHashes_entry_preserved (cfg : EventsCfg)
    (stringify : JSValue → String) (hash : String → String)
    (nid niso : String) (b : JSValue) (tm : Int) (s : EventsState)
    (hsh : String) (t : Int) (hmem : (hsh, t) ∈ s.recentHashes)
    (hwin : ¬ (tm - t > cfg.dedupeWindowMs)) :
    (hsh, t) ∈
      ((eventsHandlerV78 cfg stringify hash nid niso b tm s).1).recentHashes := by
  unfold eventsHandlerV78
  by_cases hm : cfg.opsMode = "ECHO"
  · simp [hm]
    exact hmem
  · simp only [hm, if_false, if_neg hm]
    have hcm : (hsh, t) ∈ cleanupMapByWindow s.recentHashes tm cfg.dedupeWindowMs := by
      simp [cleanupMapByWindow, List.mem_filter, hmem]
      omega
    by_cases hdup :
        (cleanupMapByWindow s.recentHashes tm cfg.dedupeWindowMs).any
          (fun e => e.1 = hash (stringify (jsBodyNullish b))) = true
    · simp [hdup]
      exact hcm
    · simp [hdup]
      left
      exact hcm

/-- A duplicate-window entry no older than the window survives any run of
v7.8 `/events` requests whose clocks stay within the window of the
entry. -/
theorem runEvents_entry_preserved (cfg : EventsCfg)
    (stringify : JSValue → String) (hash : String → String)
    (reqs : List (JSValue × Int × String × String)) (s : EventsState)
    (hsh : String) (t : Int) (hmem : (hsh, t) ∈ s.recentHashes)
    (hts : ∀ p ∈ reqs, ¬ (p.2.1 - t > cfg.dedupeWindowMs)) :
    (hsh, t) ∈ (runEvents cfg stringify hash s reqs).recentHashes := by
  induction reqs generalizing s with
  | nil => exact hmem
  | cons p rest ih =>
      exact ih _
        (recentHashes_entry_preserved cfg stringify hash p.2.2.1 p.2.2.2 p.1
          p.2.1 s hsh t hmem (hts p (by simp)))
        (fun q hq => hts q (by simp [hq]))

/-- A non-duplicate v7.8 `/events` request (in a non-ECHO mode) records its
fingerprint with the request's clock. -/
theorem eventsHandlerV78_records (cfg : EventsCfg)
    (stringify : JSValue → String) (hash : String → String)
    (nid niso : String) (b : JSValue) (t : Int) (s : EventsState)
    (hmode : cfg.opsMode ≠ "ECHO")
    (hdup : ((eventsHandlerV78 cfg stringify hash nid niso b t s).2).duplicate
      = some false) :
    (v78Fingerprint stringify hash b, t) ∈
      ((eventsHandlerV78 cfg stringify hash nid niso b t s).1).recentHashes := by
  unfold eventsHandlerV78 at hdup ⊢
  simp only [if_neg hmode] at hdup ⊢
  simp only [Option.some.injEq] at hdup
  simp [hdup, v78Fingerprint]

/-- A v7.8 `/events` request (non-ECHO) whose fingerprint is in the window
map with an age within the window reports duplicate. -/
theorem eventsHandlerV78_dup_of_mem (cfg : EventsCfg)
    (stringify : JSValue → String) (hash : String → String)
    (nid niso : String) (b : JSValue) (now : Int) (s : EventsState)
    (t : Int) (hmode : cfg.opsMode ≠ "ECHO")
    (hmem : (v78Fingerprint stringify hash b, t) ∈ s.recentHashes)
    (hwin : ¬ (now - t > cfg.dedupeWindowMs)) :
    ((eventsHandlerV78 cfg stringify hash nid niso b now s).2).duplicate
      = some true := by
  unfold eventsHandlerV78
  simp only [if_neg hmode]
  have hany : (cleanupMapByWindow s.recentHashes now cfg.dedupeWindowMs).any
      (fun e => e.1 = hash (stringify (jsBodyNullish b))) = true := by
    rw [List.any_eq_true]
    refine ⟨(v78Fingerprint stringify hash b, t), ?_, ?_⟩
    · simp [cleanupMapByWindow, List.mem_filter, hmem]
      omega
    · simp [v78Fingerprint]
  simp [hany]

/-- C4: a v7.8 `/events` request (non-ECHO) whose body was accepted as
fresh (`duplicate:false`) at time `t` makes every later request with the
identical body report `duplicate:true`, as long as that request and all
requests in between happen no later than `t + DEDUPE_WINDOW_MS`
(wall-clock times are non-decreasing, so requests preceding the probe by
at most the window satisfy this). -/
theorem events_duplicate_within_window (cfg : EventsCfg)
    (stringify : JSValue → String) (hash : String → String) (b : JSValue)
    (t now : Int) (id1 iso1 id2 iso2 : String)
    (mids : List (JSValue × Int × String × String)) (s0 : EventsState)
    (hmode : cfg.opsMode ≠ "ECHO")
    (hfirst : ((eventsHandlerV78 cfg stringify hash id1 iso1 b t s0).2).duplicate
      = some false)
    (hmid : ∀ p ∈ mids, p.2.1 ≤ now)
    (hwin : now - t ≤ cfg.dedupeWindowMs) :
    ((eventsHandlerV78 cfg stringify hash id2 iso2 b now
        (runEvents cfg stringify hash
          (eventsHandlerV78 cfg stringify hash id1 iso1 b t s0).1
          mids)).2).duplicate = some true := by
  have h1 := eventsHandlerV78_records cfg stringify hash id1 iso1 b t s0 hmode
    hfirst
  have h2 := runEvents_entry_preserved cfg stringify hash mids _ _ t h1
    (fun p hp => by have := hmid p hp; omega)
  exact eventsHandlerV78_dup_of_mem cfg stringify hash id2 iso2 b now _ t hmode
    h2 (by omega)

/-- Witness for C4: a concrete body accepted at time 0 and re-posted at
time 1000 (window 2000) reports duplicate. -/
theorem events_duplicate_within_window_witness :
    ((eventsHandlerV78 defaultEventsCfg (fun _ => "x") (fun s => s) "id2"
        "iso2" (.obj []) 1000
        (runEvents defaultEventsCfg (fun _ => "x") (fun s => s)
          (eventsHandlerV78 defaultEventsCfg (fun _ => "x") (fun s => s) "id1"
            "iso1" (.obj []) 0 eventsState0).1 [])).2).duplicate = some true := by
  exact events_duplicate_within_window defaultEventsCfg (fun _ => "x")
    (fun s => s) (.obj []) 0 1000 "id1" "iso1" "id2" "iso2" [] eventsState0
    (by decide) rfl (by simp) (by decide)

/-- A fresh fingerprint probed at time `t` is recorded with timestamp `t`,
and it is the only entry of the window map carrying that fingerprint. -/
theorem eventsHandlerV78_fresh_records (cfg : EventsCfg)
    (stringify : JSValue → String) (hash : String → String)
    (nid niso : String) (b : JSValue) (t : Int) (s0 : EventsState)
    (hmode : cfg.opsMode ≠ "ECHO")
    (hfresh : ∀ e ∈ s0.recentHashes, e.1 ≠ v78Fingerprint stringify hash b) :
    ((v78Fingerprint stringify hash b, t) ∈
      ((eventsHandlerV78 cfg stringify hash nid niso b t s0).1).recentHashes) ∧
    (∀ e ∈ ((eventsHandlerV78 cfg stringify hash nid niso b t s0).1).recentHashes,
      e.1 = v78Fingerprint stringify hash b →
      e = (v78Fingerprint stringify hash b, t)) := by
  unfold eventsHandlerV78
  simp only [if_neg hmode]
  have hany : (cleanupMapByWindow s0.recentHashes t cfg.dedupeWindowMs).any
      (fun e => e.1 = hash (stringify (jsBodyNullish b))) = false := by
    rw [List.any_eq_false]
    intro e he
    have he0 : e ∈ s0.recentHashes := List.mem_of_mem_filter he
    have := hfresh e he0
    simp [v78Fingerprint] at this
    simp [this]
  constructor
  · simp [hany, v78Fingerprint]
  · intro e he hfp
    simp only [hany] at he
    simp at he
    rcases he with he | he
    · exfalso
      have he0 : e ∈ s0.recentHashes := List.mem_of_mem_filter he
      exact hfresh e he0 hfp
    · rw [he]
      simp [v78Fingerprint]

/-- A same-body request whose clock is still within the window of the
recorded entry reports duplicate and leaves the window map's entries for
that fingerprint untouched. -/
theorem eventsHandlerV78_samefp_step (cfg : EventsCfg)
    (stringify : JSValue → String) (hash : String → String)
    (nid niso : String) (b : JSValue) (tm : Int) (s : EventsState) (t : Int)
    (hmode : cfg.opsMode ≠ "ECHO")
    (hmem : (v78Fingerprint stringify hash b, t) ∈ s.recentHashes)
    (huniq : ∀ e ∈ s.recentHashes, e.1 = v78Fingerprint stringify hash b →
      e = (v78Fingerprint stringify hash b, t))
    (hwin : ¬ (tm - t > cfg.dedupeWindowMs)) :
    ((v78Fingerprint stringify hash b, t) ∈
      ((eventsHandlerV78 cfg stringify hash nid niso b tm s).1).recentHashes) ∧
    (∀ e ∈ ((eventsHandlerV78 cfg stringify hash nid niso b tm s).1).recentHashes,
      e.1 = v78Fingerprint stringify hash b →
      e = (v78Fingerprint stringify hash b, t)) := by
  refine ⟨recentHashes_entry_preserved cfg stringify hash nid niso b tm s _ t
    hmem hwin, ?_⟩
  intro e he hfp
  rw [eventsHandlerV78_recentHashes_eq cfg stringify hash nid niso b tm s
    hmode] at he
  have hany : (cleanupMapByWindow s.recentHashes tm cfg.dedupeWindowMs).any
      (fun e => e.1 = hash (stringify (jsBodyNullish b))) = true := by
    rw [List.any_eq_true]
    refine ⟨(v78Fingerprint stringify hash b, t), ?_, ?_⟩
    · simp [cleanupMapByWindow, List.mem_filter, hmem]
      omega
    · simp [v78Fingerprint]
  rw [if_pos hany] at he
  exact huniq e (cleanupMapByWindow_subset _ _ _ e he) hfp

/-- The fingerprint invariant survives any run of same-body requests whose
clocks stay within the window of the original entry. -/
theorem runEvents_samefp_invariant (cfg : EventsCfg)
    (stringify : JSValue → String) (hash : String → String) (b : JSValue)
    (t : Int) (mids : List (Int × String × String)) (s : EventsState)
    (hmode : cfg.opsMode ≠ "ECHO")
    (hmem : (v78Fingerprint stringify hash b, t) ∈ s.recentHashes)
    (huniq : ∀ e ∈ s.recentHashes, e.1 = v78Fingerprint stringify hash b →
      e = (v78Fingerprint stringify hash b, t))
    (hts : ∀ p ∈ mids, ¬ (p.1 - t > cfg.dedupeWindowMs)) :
    ((v78Fingerprint stringify hash b, t) ∈
      (runEvents cfg stringify hash s
        (mids.map (fun p => (b, p.1, p.2.1, p.2.2)))).recentHashes) ∧
    (∀ e ∈ (runEvents cfg stringify hash s
        (mids.map (fun p => (b, p.1, p.2.1, p.2.2)))).recentHashes,
      e.1 = v78Fingerprint stringify hash b →
      e = (v78Fingerprint stringify hash b, t)) := by
  induction mids generalizing s with
  | nil => exact ⟨hmem, huniq⟩
  | cons p rest ih =>
      have hstep := eventsHandlerV78_samefp_step cfg stringify hash p.2.1
        p.2.2 b p.1 s t hmode hmem huniq (hts p (by simp))
      exact ih _ hstep.1 hstep.2 (fun q hq => hts q (by simp [hq]))

/-- A same-body request probing after the window has expired (relative to
the recorded timestamp) reports not-duplicate and re-records the
fingerprint with the probe's clock. -/
theorem eventsHandlerV78_expired_probe (cfg : EventsCfg)
    (stringify : JSValue → String) (hash : String → String)
    (nid niso : String) (b : JSValue) (now : Int) (s : EventsState) (t : Int)
    (hmode : cfg.opsMode ≠ "ECHO")
    (huniq : ∀ e ∈ s.recentHashes, e.1 = v78Fingerprint stringify hash b →
      e = (v78Fingerprint stringify hash b, t))
    (hnow : now - t > cfg.dedupeWindowMs) :
    (((eventsHandlerV78 cfg stringify hash nid niso b now s).2).duplicate
      = some false) ∧
    ((v78Fingerprint stringify hash b, now) ∈
      ((eventsHandlerV78 cfg stringify hash nid niso b now s).1).recentHashes) := by
  unfold eventsHandlerV78
  simp only [if_neg hmode]
  have hany : (cleanupMapByWindow s.recentHashes now cfg.dedupeWindowMs).any
      (fun e => e.1 = hash (stringify (jsBodyNullish b))) = false := by
    rw [List.any_eq_false]
    intro e he
    intro hfp
    have he0 : e ∈ s.recentHashes := List.mem_of_mem_filter he
    have heq := huniq e he0 (by simpa [v78Fingerprint] using hfp)
    have hkeep := List.of_mem_filter he
    rw [heq] at hkeep
    simp at hkeep
    omega
  constructor
  · simp [hany]
  · simp [hany, v78Fingerprint]

/-- C10 (implicit): a duplicate hit does not refresh the window entry's
timestamp. If a body's fingerprint is first recorded at time `t` (no other
entry carries that fingerprint), then however many same-body probes occur
in between — each within the window, hence duplicates that leave the entry
untouched — a probe at a time `now` with `now - t > DEDUPE_WINDOW_MS`
reports not-duplicate and re-records the fingerprint at `now`. -/
theorem events_dup_hit_does_not_refresh (cfg : EventsCfg)
    (stringify : JSValue → String) (hash : String → String) (b : JSValue)
    (t now : Int) (id1 iso1 id2 iso2 : String)
    (mids : List (Int × String × String)) (s0 : EventsState)
    (hmode : cfg.opsMode ≠ "ECHO")
    (hfresh : ∀ e ∈ s0.recentHashes, e.1 ≠ v78Fingerprint stringify hash b)
    (hmid : ∀ p ∈ mids, p.1 - t ≤ cfg.dedupeWindowMs)
    (hnow : now - t > cfg.dedupeWindowMs) :
    (((eventsHandlerV78 cfg stringify hash id2 iso2 b now
        (runEvents cfg stringify hash
          (eventsHandlerV78 cfg stringify hash id1 iso1 b t s0).1
          (mids.map (fun p => (b, p.1, p.2.1, p.2.2))))).2).duplicate
      = some false) ∧
    ((v78Fingerprint stringify hash b, now) ∈
      ((eventsHandlerV78 cfg stringify hash id2 iso2 b now
        (runEvents cfg stringify hash
          (eventsHandlerV78 cfg stringify hash id1 iso1 b t s0).1
          (mids.map (fun p => (b, p.1, p.2.1, p.2.2))))).1).recentHashes) := by
  have h0 := eventsHandlerV78_fresh_records cfg stringify hash id1 iso1 b t s0
    hmode hfresh
  have h1 := runEvents_samefp_invariant cfg stringify hash b t mids _ hmode
    h0.1 h0.2 (fun p hp => by have := hmid p hp; omega)
  exact eventsHandlerV78_expired_probe cfg stringify hash id2 iso2 b now _ t
    hmode h1.2 hnow

/-- Witness for C10: recorded at time 0, probed (as a duplicate) at 1000,
and probed again at 3000 with window 2000 — the last probe is
not-duplicate and the fingerprint is re-recorded at 3000. -/
theorem events_dup_hit_does_not_refresh_witness :
    (((eventsHandlerV78 defaultEventsCfg (fun _ => "x") (fun s => s) "id2"
        "iso2" (.obj []) 3000
        (runEvents defaultEventsCfg (fun _ => "x") (fun s => s)
          (eventsHandlerV78 defaultEventsCfg (fun _ => "x") (fun s => s) "id1"
            "iso1" (.obj []) 0 eventsState0).1
          ([((1000 : Int), "idm", "isom")].map
            (fun p => ((JSValue.obj []), p.1, p.2.1, p.2.2))))).2).duplicate
      = some false) ∧
    ((v78Fingerprint (fun _ => "x") (fun s => s) (.obj []), (3000 : Int)) ∈
      ((eventsHandlerV78 defaultEventsCfg (fun _ => "x") (fun s => s) "id2"
        "iso2" (.obj []) 3000
        (runEvents defaultEventsCfg (fun _ => "x") (fun s => s)
          (eventsHandlerV78 defaultEventsCfg (fun _ => "x") (fun s => s) "id1"
            "iso1" (.obj []) 0 eventsState0).1
          ([((1000 : Int), "idm", "isom")].map
            (fun p => ((JSValue.obj []), p.1, p.2.1, p.2.2))))).1).recentHashes) := by
  exact events_dup_hit_does_not_refresh defaultEventsCfg (fun _ => "x")
    (fun s => s) (.obj []) 0 3000 "id1" "iso1" "id2" "iso2"
    [((1000 : Int), "idm", "isom")] eventsState0 (by decide)
    (by
      intro e he
      simp [eventsState0] at he)
    (by
      intro p hp
      rw [List.mem_singleton] at hp
      rw [hp]
      decide)
    (by decide)

end Itpl
